import Mathlib

/-! Verification of `src/scripts/generate-pr-help.js`.

The script reads `package.json`, extracts all `fix:*` script names, and renders
a fixed-shape markdown help document.  We embed the script shallowly:

* the manifest's `scripts` object becomes an association list
  `List (String × String)` (JavaScript object keys are unique; `Object.keys`
  returns them in insertion order, which is the list order here);
* the static tables `COMMAND_DESCRIPTIONS`, `USAGE_EXAMPLES` and
  `TROUBLESHOOTING` become Lean constants with the exact strings of the source;
* `generateHelpText` becomes a pure function of the scripts mapping (the only
  part of `package.json` it consumes);
* the CLI entry point (`require.main === module` block) becomes `runMain`,
  a function from the outcome of loading `package.json` to a process result
  (stdout, stderr, exit code).
-/

namespace GeneratePrHelp

/-- A record of the static `USAGE_EXAMPLES` table: `{command, description, when}`.
The `when` field of the JavaScript object is called `whenToUse` here. -/
structure UsageExample where
  command : String
  description : String
  whenToUse : String
deriving DecidableEq, Repr

/-- A record of the static `TROUBLESHOOTING` table: `{issue, solution}`. -/
structure TroubleshootingTip where
  issue : String
  solution : String
deriving DecidableEq, Repr

/-- The static command-description table of the script (lines 12-28). -/
def COMMAND_DESCRIPTIONS : List (String × String) :=
  [("fix:dict", "Normalize cspell front matter in markdown files"),
   ("fix:expired", "Delete expired content files"),
   ("fix:filenames", "Rename files with underscores to kebab-case"),
   ("fix:format", "Format code and trim trailing spaces"),
   ("fix:htmltest-config", "Update htmltest configuration"),
   ("fix:i18n:status", "Update internationalization status"),
   ("fix:i18n:new", "Handle new internationalization files"),
   ("fix:i18n", "Run all i18n fixes (new + status)"),
   ("fix:markdown", "Fix markdown linting issues and trailing spaces"),
   ("fix:refcache:refresh", "Refresh reference cache (prune entries)"),
   ("fix:refcache", "Prune reference cache and check links"),
   ("fix:submodule", "Pin submodules and update semconv mounts"),
   ("fix:text", "Fix textlint issues"),
   ("fix:all", "Run all fix commands (except i18n)"),
   ("fix", "Run all fix commands")]

/-- The static `USAGE_EXAMPLES` table of the script (lines 31-52). -/
def USAGE_EXAMPLES : List UsageExample :=
  [⟨"/fix:format", "Format all code files and fix spacing issues",
    "Use when CI shows formatting errors"⟩,
   ⟨"/fix:markdown", "Fix markdown linting issues",
    "Use when markdownlint checks fail"⟩,
   ⟨"/fix:refcache", "Update the reference cache for link checking",
    "Use when link checker shows stale cached results"⟩,
   ⟨"/fix:submodule", "Update git submodules to latest versions",
    "Use when submodule updates are needed"⟩]

/-- The static `TROUBLESHOOTING` table of the script (lines 55-76). -/
def TROUBLESHOOTING : List TroubleshootingTip :=
  [⟨"Command had no effect",
    "The command may have run successfully but found nothing to fix. Check the workflow run logs for details."⟩,
   ⟨"Command failed with errors",
    "Check the workflow run logs for specific error messages. You may need to fix issues manually."⟩,
   ⟨"Patch too large",
    "The changes exceed 1MB limit. Break into smaller fixes or apply changes manually."⟩,
   ⟨"Patch failed to apply",
    "Conflicts with recent commits. Pull latest changes and run the fix locally."⟩]

/-- JavaScript `v || d` on a string lookup result: `undefined` (here `none`)
and the empty string are falsy, so both fall back to the default. -/
def jsOr (v : Option String) (d : String) : String :=
  match v with
  | some s => if s = "" then d else s
  | none => d

/-- JavaScript `s.startsWith(p)`: the characters of `p` are an initial segment
of the characters of `s`.  (Lean's own `String.startsWith` is the same test,
but its byte-iterator implementation does not reduce in the kernel, so the
character-list form is used.) -/
def jsStartsWith (s p : String) : Bool :=
  p.toList.isPrefixOf s.toList

/-- Lines 84-86: `Object.keys(packageJson.scripts).filter((script) =>
script.startsWith('fix:')).sort()`.  The default `Array.prototype.sort`
comparator orders strings lexicographically. -/
def fixCommands (scripts : List (String × String)) : List String :=
  ((scripts.map Prod.fst).filter (fun script => jsStartsWith script "fix:")).mergeSort
    (fun a b => a ≤ b)

/-- Lines 89-90: the fixed document header. -/
def headerSection : String :=
  "## 🤖 PR Actions Bot - Help\n\nThis bot can automatically fix common issues in your PR by responding to slash commands.\n\n"

/-- Lines 93-94: the Available Commands section header. -/
def commandsHeader : String :=
  "### 📋 Available Commands\n\nComment on this PR with any of these commands:\n\n"

/-- Lines 96-99: one line per fix command, with the description looked up in
`COMMAND_DESCRIPTIONS` and defaulting to the fallback text. -/
def renderCommand (cmd : String) : String :=
  "- `/" ++ cmd ++ "` - " ++ jsOr (COMMAND_DESCRIPTIONS.lookup cmd) "Run fix command" ++ "\n"

/-- Lines 93-99: the Available Commands section. -/
def commandsSection (scripts : List (String × String)) : String :=
  commandsHeader ++ String.join ((fixCommands scripts).map renderCommand)

/-- Lines 103-107: the three-line block rendered for one usage example. -/
def renderExample (e : UsageExample) : String :=
  "**`" ++ e.command ++ "`**\n" ++ "- " ++ e.description ++ "\n" ++ "- _" ++ e.whenToUse ++ "_\n\n"

/-- Lines 102-107: the Usage Examples section. -/
def usageSection : String :=
  "\n### 💡 Usage Examples\n\n" ++ String.join (USAGE_EXAMPLES.map renderExample)

/-- Lines 110-114: the fixed How It Works section. -/
def howItWorksSection : String :=
  "### ⚙️ How It Works\n\n1. Comment with a `/fix:*` command on this PR\n2. The bot runs the command in a secure environment\n3. If changes are needed, they\x27re automatically committed to your branch\n4. You\x27ll get a success/failure notification\n\n"

/-- Lines 118-121: the two-line block rendered for one troubleshooting tip. -/
def renderTip (t : TroubleshootingTip) : String :=
  "**" ++ t.issue ++ "**\n" ++ t.solution ++ "\n\n"

/-- Lines 117-121: the Troubleshooting section. -/
def troubleshootingSection : String :=
  "### 🔧 Troubleshooting\n\n" ++ String.join (TROUBLESHOOTING.map renderTip)

/-- Lines 124-127: the fixed Documentation section. -/
def documentationSection : String :=
  "### 📚 Documentation\n\n- [Contributing Guide](https://opentelemetry.io/docs/contributing/)\n- [Project README](../CONTRIBUTING.md)\n- [PR Actions Workflow](.github/workflows/pr-actions.yml)\n\n"

/-- Lines 129-130: the fixed footer. -/
def footerSection : String :=
  "---\n_💬 Need more help? Ask in the PR comments or reach out to maintainers._\n"

/-- Lines 78-133: `generateHelpText`, as a function of the `scripts` mapping of
`package.json` (the only part of the file the script consumes).  The JavaScript
builds the string by successive `+=`; here it is the same concatenation with
the sections named. -/
def generateHelpText (scripts : List (String × String)) : String :=
  headerSection ++ commandsSection scripts ++ usageSection ++ howItWorksSection ++
    troubleshootingSection ++ documentationSection ++ footerSection

/-- The part of `package.json` the script looks at: its `scripts` field.
`none` models a manifest without a `scripts` object (then
`Object.keys(packageJson.scripts)` throws a `TypeError`). -/
structure PackageJson where
  scripts : Option (List (String × String))
deriving DecidableEq, Repr

/-- The observable outcome of the CLI entry point: what it printed to stdout
and stderr, and the process exit code. -/
structure ProcResult where
  stdout : String
  stderr : String
  exitCode : Nat
deriving DecidableEq, Repr

/-- The error-aware body of `generateHelpText`: with a well-formed manifest it
returns the markdown; when the `scripts` field is missing, `Object.keys`
throws (the message of the `TypeError` in Node). -/
def generateHelpTextE (pkg : PackageJson) : Except String String :=
  match pkg.scripts with
  | none => Except.error "Cannot convert undefined or null to object"
  | some s => Except.ok (generateHelpText s)

/-- Lines 136-144: the `require.main === module` block.  The argument is the
outcome of reading and parsing `package.json` (`Except.error e` when
`fs.readFileSync` or `JSON.parse` throws with message `e`).  On success the
help text goes to stdout via `console.log` (which appends a newline) and the
process exits with status 0; on any caught error the message goes to stderr
via `console.error` and the process exits with status 1. -/
def runMain (load : Except String PackageJson) : ProcResult :=
  match (match load with
         | Except.error e => Except.error e
         | Except.ok pkg => generateHelpTextE pkg) with
  | Except.ok text => ⟨text ++ "\n", "", 0⟩
  | Except.error msg => ⟨"", "Error generating help text: " ++ msg ++ "\n", 1⟩

/-- The state the script can touch: the contents of the file at
`packageJsonPath` (as an `Except` carrying a read or parse failure).
Used to state that `generateHelpText` reads the world but never writes it. -/
structure World where
  packageJsonFile : Except String PackageJson

/-- Lines 78-133 viewed as a state transformer: `generateHelpText` reads
`package.json` from the world and returns the document (or the thrown error,
as data), passing the world through untouched. -/
def generateHelpTextRun (w : World) : Except String String × World :=
  (match w.packageJsonFile with
   | Except.error e => Except.error e
   | Except.ok pkg => generateHelpTextE pkg, w)

/-! Helper lemmas: facts about the lexicographic order on `String` and about
`mergeSort` that the claim theorems share. -/

theorem stringLe_trans_bool :
    ∀ (a b c : String), decide (a ≤ b) → decide (b ≤ c) → decide (a ≤ c) := by
  intro a b c hab hbc
  simp only [decide_eq_true_eq] at *
  exact le_trans hab hbc

theorem stringLe_total_bool :
    ∀ (a b : String), (decide (a ≤ b) || decide (b ≤ a)) := by
  intro a b
  simp only [Bool.or_eq_true, decide_eq_true_eq]
  exact le_total a b

theorem sorted_mergeSortStr (l : List String) :
    (l.mergeSort (fun a b => a ≤ b)).Sorted (· ≤ ·) :=
  (List.sorted_mergeSort stringLe_trans_bool stringLe_total_bool l).imp (by simp)

theorem sorted_fixCommands (scripts : List (String × String)) :
    (fixCommands scripts).Sorted (· ≤ ·) :=
  sorted_mergeSortStr _

theorem mergeSort_eq_of_perm_of_sorted {l r : List String}
    (hp : l.Perm r) (hs : r.Sorted (· ≤ ·)) :
    l.mergeSort (fun a b => a ≤ b) = r :=
  List.eq_of_perm_of_sorted ((List.mergeSort_perm l _).trans hp)
    (sorted_mergeSortStr l) hs

theorem sorted_toList_iff (l : List String) :
    l.Sorted (· ≤ ·) ↔ (l.map String.toList).Pairwise (fun a b => a ≤ b) := by
  rw [List.Sorted, List.pairwise_map]
  exact ⟨fun h => h.imp fun hab => String.le_iff_toList_le.mp hab,
         fun h => h.imp fun hab => String.le_iff_toList_le.mpr hab⟩

/-- Concrete evaluation of `fixCommands`: exhibit the filtered keys as a
permutation of the claimed result and check sortedness on character lists
(which the kernel can evaluate). -/
theorem fixCommands_eq_of (scripts : List (String × String)) (r : List String)
    (hp : ((scripts.map Prod.fst).filter (fun script => jsStartsWith script "fix:")).Perm r)
    (hs : (r.map String.toList).Pairwise (fun a b => a ≤ b)) :
    fixCommands scripts = r :=
  mergeSort_eq_of_perm_of_sorted hp ((sorted_toList_iff r).mpr hs)

theorem lookup_value_mem_of_ne_empty (l : List (String × String))
    (hall : ∀ p ∈ l, p.2 ≠ "") (k d : String) (h : l.lookup k = some d) : d ≠ "" := by
  induction l with
  | nil => simp [List.lookup] at h
  | cons p t ih =>
    obtain ⟨a, v⟩ := p
    rw [List.lookup] at h
    cases hk : (k == a) with
    | true =>
      rw [hk] at h
      injection h with hvd
      subst hvd
      exact hall (a, v) (List.mem_cons_self _ _)
    | false =>
      rw [hk] at h
      exact ih (fun q hq => hall q (List.mem_cons_of_mem _ hq)) h

theorem append_ne_empty_of_right (s t : String) (h : t ≠ "") : s ++ t ≠ "" := by
  intro hc
  apply h
  have hd : s.data ++ t.data = [] := by
    have := congrArg String.data hc
    simpa using this
  rcases List.append_eq_nil.mp hd with ⟨-, h2⟩
  cases t
  simp_all

/-- Claim C1: for a manifest with scripts keys `{fix:a, fix:b, other}` (in any
insertion order) the listed commands are exactly `fix:a` and `fix:b` in
lexicographic order; in general, for a manifest with unique keys, the command
list of the output is sorted, has no duplicates, and holds exactly the manifest
keys beginning with `fix:`, one rendered line per command. -/
theorem fixCommands_exactly_sorted_fix_keys (scripts : List (String × String))
    (hnd : (scripts.map Prod.fst).Nodup) :
    ((scripts.map Prod.fst).Perm ["fix:a", "fix:b", "other"] →
      fixCommands scripts = ["fix:a", "fix:b"]) ∧
    (fixCommands scripts).Sorted (· ≤ ·) ∧
    (fixCommands scripts).Nodup ∧
    (∀ cmd : String, cmd ∈ fixCommands scripts ↔
      cmd ∈ scripts.map Prod.fst ∧ jsStartsWith cmd "fix:" = true) ∧
    (∃ pre post, generateHelpText scripts =
      pre ++ String.join ((fixCommands scripts).map renderCommand) ++ post) := by
  refine ⟨?_, sorted_fixCommands scripts, ?_, ?_, ?_⟩
  · intro hperm
    apply fixCommands_eq_of
    · have hf := hperm.filter (fun script => jsStartsWith script "fix:")
      have he : (["fix:a", "fix:b", "other"].filter (fun script => jsStartsWith script "fix:")) =
          ["fix:a", "fix:b"] := by decide
      rw [he] at hf
      exact hf
    · decide
  · exact (List.mergeSort_perm _ _).nodup_iff.mpr
      (hnd.filter (fun script => jsStartsWith script "fix:"))
  · intro cmd
    rw [fixCommands, List.mem_mergeSort, List.mem_filter]
  · refine ⟨headerSection ++ commandsHeader,
      usageSection ++ howItWorksSection ++ troubleshootingSection ++
        documentationSection ++ footerSection, ?_⟩
    simp [generateHelpText, commandsSection, String.append_assoc]

/-- Witness for C1 at the manifest with keys `fix:b`, `other`, `fix:a`. -/
theorem c1_witness :
    fixCommands [("fix:b", "b"), ("other", "o"), ("fix:a", "a")] = ["fix:a", "fix:b"] :=
  (fixCommands_exactly_sorted_fix_keys [("fix:b", "b"), ("other", "o"), ("fix:a", "a")]
    (by decide)).1 (by decide)

/-- Claim C2: a fix command present in `COMMAND_DESCRIPTIONS` renders its
mapped description in the fixed line layout; a command absent from the table
renders the fallback text `Run fix command`. -/
theorem renderCommand_description (cmd : String) :
    (∀ d, COMMAND_DESCRIPTIONS.lookup cmd = some d →
      renderCommand cmd = "- `/" ++ cmd ++ "` - " ++ d ++ "\n") ∧
    (COMMAND_DESCRIPTIONS.lookup cmd = none →
      renderCommand cmd = "- `/" ++ cmd ++ "` - " ++ "Run fix command" ++ "\n") := by
  constructor
  · intro d hd
    have hne : d ≠ "" :=
      lookup_value_mem_of_ne_empty COMMAND_DESCRIPTIONS (by decide) cmd d hd
    rw [renderCommand, hd, jsOr, if_neg hne]
  · intro hn
    rw [renderCommand, hn, jsOr]

/-- Witness for C2: `fix:format` is in the table, `fix:doesnotexist` is not. -/
theorem c2_witness :
    renderCommand "fix:format" =
      "- `/" ++ "fix:format" ++ "` - " ++ "Format code and trim trailing spaces" ++ "\n" ∧
    renderCommand "fix:doesnotexist" =
      "- `/" ++ "fix:doesnotexist" ++ "` - " ++ "Run fix command" ++ "\n" :=
  ⟨(renderCommand_description "fix:format").1 "Format code and trim trailing spaces" (by decide),
   (renderCommand_description "fix:doesnotexist").2 (by decide)⟩

/-- Claim C3: when the manifest cannot be read or parsed, or has no scripts
mapping, the CLI prints a non-empty diagnostic to stderr that contains the
underlying error message and exits with a non-zero status; on success it
prints the markdown to stdout and exits with status 0. -/
theorem runMain_error_reporting (load : Except String PackageJson) :
    (∀ e, load = Except.error e →
      runMain load = ⟨"", "Error generating help text: " ++ e ++ "\n", 1⟩ ∧
      (runMain load).stderr ≠ "" ∧
      (∃ pre post, (runMain load).stderr = pre ++ e ++ post) ∧
      (runMain load).exitCode ≠ 0) ∧
    (∀ pkg, load = Except.ok pkg → pkg.scripts = none →
      runMain load =
        ⟨"", "Error generating help text: " ++
          "Cannot convert undefined or null to object" ++ "\n", 1⟩ ∧
      (runMain load).stderr ≠ "" ∧ (runMain load).exitCode ≠ 0) ∧
    (∀ pkg s, load = Except.ok pkg → pkg.scripts = some s →
      runMain load = ⟨generateHelpText s ++ "\n", "", 0⟩) := by
  refine ⟨?_, ?_, ?_⟩
  · intro e he
    subst he
    have hr : runMain (Except.error e) =
        ⟨"", "Error generating help text: " ++ e ++ "\n", 1⟩ := rfl
    refine ⟨hr, ?_, ?_, ?_⟩
    · rw [hr]
      exact append_ne_empty_of_right _ "\n" (by decide)
    · rw [hr]
      exact ⟨"Error generating help text: ", "\n", rfl⟩
    · rw [hr]
      simp
  · intro pkg hpk hs
    subst hpk
    have hr : runMain (Except.ok pkg) =
        ⟨"", "Error generating help text: " ++
          "Cannot convert undefined or null to object" ++ "\n", 1⟩ := by
      simp [runMain, generateHelpTextE, hs]
    refine ⟨hr, ?_, ?_⟩
    · rw [hr]
      exact append_ne_empty_of_right _ "\n" (by decide)
    · rw [hr]
      simp
  · intro pkg s hpk hs
    subst hpk
    simp [runMain, generateHelpTextE, hs]

/-- Witness for C3 at a concrete read failure. -/
theorem c3_witness :
    runMain (Except.error "ENOENT: no such file or directory") =
      ⟨"", "Error generating help text: " ++ "ENOENT: no such file or directory" ++ "\n", 1⟩ ∧
    (runMain (Except.error "ENOENT: no such file or directory")).stderr ≠ "" ∧
    (∃ pre post, (runMain (Except.error "ENOENT: no such file or directory")).stderr =
      pre ++ "ENOENT: no such file or directory" ++ post) ∧
    (runMain (Except.error "ENOENT: no such file or directory")).exitCode ≠ 0 :=
  (runMain_error_reporting (Except.error "ENOENT: no such file or directory")).1
    "ENOENT: no such file or directory" rfl

/-- Claim C4: the output of every run holds the rendered `USAGE_EXAMPLES` and
`TROUBLESHOOTING` records in their authored order, and the rendered sequence
holds each record exactly once, each with its fields substituted into the
fixed layout of `renderExample` and `renderTip`. -/
theorem static_lists_rendered_once (scripts : List (String × String)) :
    (∃ pre mid post, generateHelpText scripts =
        pre ++ String.join (USAGE_EXAMPLES.map renderExample) ++ mid ++
          String.join (TROUBLESHOOTING.map renderTip) ++ post) ∧
    (∀ e ∈ USAGE_EXAMPLES, (USAGE_EXAMPLES.map renderExample).count (renderExample e) = 1) ∧
    (∀ t ∈ TROUBLESHOOTING, (TROUBLESHOOTING.map renderTip).count (renderTip t) = 1) := by
  refine ⟨⟨headerSection ++ commandsSection scripts ++ "\n### 💡 Usage Examples\n\n",
           howItWorksSection ++ "### 🔧 Troubleshooting\n\n",
           documentationSection ++ footerSection, ?_⟩, by decide, by decide⟩
  simp [generateHelpText, usageSection, troubleshootingSection, String.append_assoc]

/-- Witness for C4: the first usage example and the third troubleshooting tip
each render exactly once. -/
theorem c4_witness :
    (USAGE_EXAMPLES.map renderExample).count
      (renderExample ⟨"/fix:format", "Format all code files and fix spacing issues",
        "Use when CI shows formatting errors"⟩) = 1 ∧
    (TROUBLESHOOTING.map renderTip).count
      (renderTip ⟨"Patch too large",
        "The changes exceed 1MB limit. Break into smaller fixes or apply changes manually."⟩) = 1 :=
  ⟨(static_lists_rendered_once []).2.1 _ (by decide),
   (static_lists_rendered_once []).2.2 _ (by decide)⟩

/-- Claim C5: `generateHelpText` is deterministic: identical manifest content
yields byte-identical output. -/
theorem generateHelpText_deterministic (s₁ s₂ : List (String × String)) (h : s₁ = s₂) :
    generateHelpText s₁ = generateHelpText s₂ :=
  congrArg generateHelpText h

/-- Witness for C5 at a concrete manifest. -/
theorem c5_witness :
    generateHelpText [("fix:format", "run it")] = generateHelpText [("fix:format", "run it")] :=
  generateHelpText_deterministic [("fix:format", "run it")] [("fix:format", "run it")] rfl

/-- Claim C6: the output depends only on the key names of the scripts mapping:
two manifests with the same key set (each with unique keys, as in a JavaScript
object) and arbitrarily different values produce equal output. -/
theorem generateHelpText_depends_only_on_keys (s₁ s₂ : List (String × String))
    (h₁ : (s₁.map Prod.fst).Nodup) (h₂ : (s₂.map Prod.fst).Nodup)
    (hk : ∀ k : String, k ∈ s₁.map Prod.fst ↔ k ∈ s₂.map Prod.fst) :
    generateHelpText s₁ = generateHelpText s₂ := by
  have hperm : (s₁.map Prod.fst).Perm (s₂.map Prod.fst) :=
    (List.perm_ext_iff_of_nodup h₁ h₂).mpr hk
  have hfix : fixCommands s₁ = fixCommands s₂ :=
    mergeSort_eq_of_perm_of_sorted
      ((hperm.filter _).trans (List.mergeSort_perm _ _).symm)
      (sorted_fixCommands s₂)
  simp only [generateHelpText, commandsSection, hfix]

/-- Witness for C6: same keys in a different insertion order with different
values. -/
theorem c6_witness :
    generateHelpText [("fix:x", "old value"), ("a", "1")] =
      generateHelpText [("a", "different"), ("fix:x", "changed value")] :=
  generateHelpText_depends_only_on_keys _ _ (by decide) (by decide)
    (by intro k; simp [or_comm])

/-- Claim C7: `generateHelpText` is pure: run as a state transformer over the
world it reads, it leaves the world unchanged, and its result is a function of
the manifest content alone. -/
theorem generateHelpText_no_side_effects (w w' : World) :
    (generateHelpTextRun w).2 = w ∧
    (w.packageJsonFile = w'.packageJsonFile →
      (generateHelpTextRun w).1 = (generateHelpTextRun w').1) := by
  refine ⟨rfl, fun h => ?_⟩
  simp only [generateHelpTextRun, h]

/-- Witness for C7 at a concrete world. -/
theorem c7_witness :
    (generateHelpTextRun ⟨Except.ok ⟨some [("fix:a", "v")]⟩⟩).2 = ⟨Except.ok ⟨some [("fix:a", "v")]⟩⟩ ∧
    (generateHelpTextRun ⟨Except.ok ⟨some [("fix:a", "v")]⟩⟩).1 =
      (generateHelpTextRun ⟨Except.ok ⟨some [("fix:a", "v")]⟩⟩).1 :=
  ⟨(generateHelpText_no_side_effects ⟨Except.ok ⟨some [("fix:a", "v")]⟩⟩
      ⟨Except.ok ⟨some [("fix:a", "v")]⟩⟩).1,
   (generateHelpText_no_side_effects ⟨Except.ok ⟨some [("fix:a", "v")]⟩⟩
      ⟨Except.ok ⟨some [("fix:a", "v")]⟩⟩).2 rfl⟩

/-- Claim C8: a scripts key exactly equal to `fix` (no colon) is never listed,
even though `COMMAND_DESCRIPTIONS` has an entry for it: every listed command
begins with `fix:`. -/
theorem fix_without_colon_not_listed (scripts : List (String × String)) :
    "fix" ∉ fixCommands scripts ∧
    COMMAND_DESCRIPTIONS.lookup "fix" = some "Run all fix commands" ∧
    (∀ cmd ∈ fixCommands scripts, jsStartsWith cmd "fix:" = true) := by
  refine ⟨?_, by decide, ?_⟩
  · intro hmem
    rw [fixCommands, List.mem_mergeSort, List.mem_filter] at hmem
    have : jsStartsWith "fix" "fix:" = true := hmem.2
    simp [jsStartsWith, List.isPrefixOf] at this
  · intro cmd hmem
    rw [fixCommands, List.mem_mergeSort, List.mem_filter] at hmem
    exact hmem.2

/-- Witness for C8: a manifest holding both `fix` and `fix:a` lists only
`fix:a`. -/
theorem c8_witness :
    "fix" ∉ fixCommands [("fix", "all"), ("fix:a", "a")] ∧
    jsStartsWith "fix:a" "fix:" = true := by
  have h := fix_without_colon_not_listed [("fix", "all"), ("fix:a", "a")]
  refine ⟨h.1, h.2.2 "fix:a" ?_⟩
  rw [fixCommands_eq_of [("fix", "all"), ("fix:a", "a")] ["fix:a"] (by decide) (by decide)]
  exact List.mem_singleton.mpr rfl

/-- Claim C9: `generateHelpText` is total on every manifest whose scripts value
is a mapping: it always returns the full document with all static sections,
and a manifest with no `fix:` keys yields an empty command list, not a
failure. -/
theorem generateHelpText_total_all_sections (scripts : List (String × String)) :
    generateHelpText scripts =
      headerSection ++ (commandsHeader ++ String.join ((fixCommands scripts).map renderCommand)) ++
        usageSection ++ howItWorksSection ++ troubleshootingSection ++
        documentationSection ++ footerSection ∧
    ((scripts.map Prod.fst).filter (fun script => jsStartsWith script "fix:") = [] →
      generateHelpText scripts =
        headerSection ++ commandsHeader ++ usageSection ++ howItWorksSection ++
          troubleshootingSection ++ documentationSection ++ footerSection) := by
  constructor
  · rfl
  · intro h
    simp [generateHelpText, commandsSection, fixCommands, h, String.join, String.append_assoc]

/-- Witness for C9 at a manifest with no `fix:` keys. -/
theorem c9_witness :
    generateHelpText [("other", "x")] =
      headerSection ++ commandsHeader ++ usageSection ++ howItWorksSection ++
        troubleshootingSection ++ documentationSection ++ footerSection :=
  (generateHelpText_total_all_sections [("other", "x")]).2 (by decide)

set_option maxRecDepth 8192 in
/-- Claim C10: for every manifest the output begins with the fixed header line,
ends with the fixed footer line followed by a newline, and the five section
headers appear in the fixed order: Available Commands, Usage Examples, How It
Works, Troubleshooting, Documentation. -/
theorem output_fixed_shape (scripts : List (String × String)) :
    (∃ rest, generateHelpText scripts = "## 🤖 PR Actions Bot - Help" ++ rest) ∧
    (∃ pre, generateHelpText scripts =
      pre ++ "_💬 Need more help? Ask in the PR comments or reach out to maintainers._\n") ∧
    (∃ p1 p2 p3 p4 p5 p6, generateHelpText scripts =
      p1 ++ "### 📋 Available Commands" ++ p2 ++ "### 💡 Usage Examples" ++ p3 ++
        "### ⚙️ How It Works" ++ p4 ++ "### 🔧 Troubleshooting" ++ p5 ++
        "### 📚 Documentation" ++ p6) := by
  have hhead : headerSection = "## 🤖 PR Actions Bot - Help" ++
      "\n\nThis bot can automatically fix common issues in your PR by responding to slash commands.\n\n" := by
    decide
  have hch : commandsHeader = "### 📋 Available Commands" ++
      "\n\nComment on this PR with any of these commands:\n\n" := by decide
  have hu2 : ("\n### 💡 Usage Examples\n\n" : String) =
      "\n" ++ "### 💡 Usage Examples" ++ "\n\n" := by decide
  have hhw : howItWorksSection = "### ⚙️ How It Works" ++
      "\n\n1. Comment with a `/fix:*` command on this PR\n2. The bot runs the command in a secure environment\n3. If changes are needed, they\x27re automatically committed to your branch\n4. You\x27ll get a success/failure notification\n\n" := by
    decide
  have htr : ("### 🔧 Troubleshooting\n\n" : String) =
      "### 🔧 Troubleshooting" ++ "\n\n" := by decide
  have hdoc : documentationSection = "### 📚 Documentation" ++
      "\n\n- [Contributing Guide](https://opentelemetry.io/docs/contributing/)\n- [Project README](../CONTRIBUTING.md)\n- [PR Actions Workflow](.github/workflows/pr-actions.yml)\n\n" := by
    decide
  have hfoot : footerSection = "---\n" ++
      "_💬 Need more help? Ask in the PR comments or reach out to maintainers._\n" := by decide
  refine ⟨⟨"\n\nThis bot can automatically fix common issues in your PR by responding to slash commands.\n\n" ++
      commandsSection scripts ++ usageSection ++ howItWorksSection ++ troubleshootingSection ++
      documentationSection ++ footerSection, ?_⟩,
    ⟨headerSection ++ commandsSection scripts ++ usageSection ++ howItWorksSection ++
      troubleshootingSection ++ documentationSection ++ "---\n", ?_⟩,
    ⟨headerSection,
     "\n\nComment on this PR with any of these commands:\n\n" ++
       String.join ((fixCommands scripts).map renderCommand) ++ "\n",
     "\n\n" ++ String.join (USAGE_EXAMPLES.map renderExample),
     "\n\n1. Comment with a `/fix:*` command on this PR\n2. The bot runs the command in a secure environment\n3. If changes are needed, they\x27re automatically committed to your branch\n4. You\x27ll get a success/failure notification\n\n",
     "\n\n" ++ String.join (TROUBLESHOOTING.map renderTip),
     "\n\n- [Contributing Guide](https://opentelemetry.io/docs/contributing/)\n- [Project README](../CONTRIBUTING.md)\n- [PR Actions Workflow](.github/workflows/pr-actions.yml)\n\n" ++
       footerSection, ?_⟩⟩
  · simp only [generateHelpText, hhead, String.append_assoc]
  · simp only [generateHelpText, hfoot, String.append_assoc]
  · simp only [generateHelpText, commandsSection, usageSection, troubleshootingSection,
      hch, hu2, hhw, htr, hdoc, String.append_assoc]

end GeneratePrHelp
